import Mathlib

/-!
# GalaxyCite — Citation Galaxy Layout & Interaction Engine

A shallow embedding of the core algorithms of the GalaxyCite frontend:
the spherical/golden-angle layout, the color/size visual encoders, the
connection-curve generator, the central-publication resolver, the year
histogram and range filter, and the app-level state transition performed
on a successful graph fetch.

Conventions of the embedding:
* JS objects with possibly-missing fields become structures with `Option`
  fields; the JS `x || d` defaulting idiom on numbers becomes `Option.getD`
  (for the places where it is applied to values that are `0`, the JS result
  is the default `d = 0` as well, so `getD 0` agrees), and on a strength it
  is modelled by an explicit function mapping `none` and `0` to `1`.
* JS numbers are modelled as `Int` (years, citation counts, clusters) and
  `ℚ` (geometry, strengths, opacities); transcendental functions used by
  the layout (`Math.sin`, `Math.cos`, `Math.acos`, `Math.sqrt`, `Math.PI`)
  are abstracted into a record of operations `TrigOps`, so every statement
  about the layout is proved for an arbitrary interpretation of them.
* Code that can throw a `TypeError` (reading `.substring` of an absent
  title) returns `Except String _`.
-/

namespace GalaxyCite

/-- A publication record as delivered to the frontend; every metadata field
may be absent. `citation_count` keeps the snake_case name of the source. -/
structure Paper where
  id : Option String
  title : Option String
  authors : Option (List String)
  year : Option Int
  citation_count : Option Int
  fields : Option (List String)
  cluster : Option Int
deriving Repr, DecidableEq

/-- `paper.citation_count || 0` — missing (and zero) citation counts read as 0. -/
def ccOrZero (p : Paper) : Int := p.citation_count.getD 0

/-- `paper.cluster || 0`. -/
def clusterOrZero (p : Paper) : Int := p.cluster.getD 0

/-- A citation relation between two publications, with an optional strength. -/
structure Connection where
  source : String
  target : String
  strength : Option ℚ
deriving Repr, DecidableEq

/-! ## Visual encoder: `Star.getColor` -/

/-- The `fieldColors` lookup table of `Star.getColor`. -/
def fieldColor (f : String) : Option String :=
  if f = "Computer Science" then some "#4285F4"
  else if f = "Artificial Intelligence" then some "#EA4335"
  else if f = "Machine Learning" then some "#FBBC05"
  else if f = "Mathematics" then some "#34A853"
  else if f = "Physics" then some "#8B5CF6"
  else if f = "Biology" then some "#10B981"
  else if f = "Chemistry" then some "#F59E0B"
  else if f = "Medicine" then some "#EF4444"
  else if f = "Engineering" then some "#6366F1"
  else none

/-- The `clusterColors` fallback palette of `Star.getColor`. -/
def clusterColors : List String :=
  ["#FF6B6B", "#4ECDC4", "#FFD166", "#06D6A0",
   "#118AB2", "#EF476F", "#073B4C", "#7209B7"]

/-- `clusterColors[Math.abs(paper.cluster || 0) % clusterColors.length]`. -/
def clusterFallbackColor (p : Paper) : String :=
  clusterColors.getD ((clusterOrZero p).natAbs % clusterColors.length) ""

/-- `Star.getColor`: the first recognized entry of `paper.fields` wins;
otherwise the cluster-indexed fallback palette. -/
def getColor (p : Paper) : String :=
  match p.fields with
  | some fs =>
    if fs.length > 0 then
      match fs.findSome? fieldColor with
      | some c => c
      | none => clusterFallbackColor p
    else clusterFallbackColor p
  | none => clusterFallbackColor p

/-! ## Visual encoder: star size and labels -/

/-- `0.3 + Math.log10((paper.citation_count || 0) + 1) * 0.2`, for an
arbitrary interpretation `log10` of the logarithm. -/
def starSize (log10 : ℚ → ℚ) (p : Paper) : ℚ :=
  3/10 + log10 ((ccOrZero p : ℚ) + 1) * (2/10)

/-- The central label `paper.title.substring(0, 20) + '...'`; reading
`substring` of an absent title throws. -/
def starCentralLabel (p : Paper) (isCentral : Bool) : Except String (List String) :=
  if isCentral then
    match p.title with
    | some t => .ok [t.take 20 ++ "..."]
    | none => .error "TypeError: undefined title"
  else .ok []

/-- The hover label `paper.title.substring(0, 15) + '...'`, rendered when
`hovered && !isSelected`. -/
def starHoverLabel (p : Paper) (isSelected hovered : Bool) : Except String (List String) :=
  if hovered && !isSelected then
    match p.title with
    | some t => .ok [t.take 15 ++ "..."]
    | none => .error "TypeError: undefined title"
  else .ok []

/-- The per-star render model derived by the `Star` component. -/
structure RenderedStar where
  color : String
  size : ℚ
  labels : List String
deriving Repr, DecidableEq

/-- Rendering one star: derive color and size, then the labels; a thrown
`TypeError` propagates. -/
def renderStar (log10 : ℚ → ℚ) (p : Paper) (isSelected isCentral hovered : Bool) :
    Except String RenderedStar := do
  let ls1 ← starCentralLabel p isCentral
  let ls2 ← starHoverLabel p isSelected hovered
  pure { color := getColor p, size := starSize log10 p, labels := ls1 ++ ls2 }

/-! ## Layout: `Galaxy.positionedPapers` -/

/-- Abstract interpretation of the transcendental operations used by the
layout (`Math.sin`, `Math.cos`, `Math.acos`, `Math.sqrt`, `Math.PI`). -/
structure TrigOps where
  sin : ℚ → ℚ
  cos : ℚ → ℚ
  acos : ℚ → ℚ
  sqrt : ℚ → ℚ
  pi : ℚ

/-- The position the layout assigns to the paper at `index` out of `total`:
`(0,0,0)` when `total == 1`, otherwise the golden-angle spherical mapping
with the vertical axis compressed by `0.5`. -/
def galaxyPosition (ops : TrigOps) (total index : Nat) (p : Paper) : ℚ × ℚ × ℚ :=
  if total = 1 then (0, 0, 0)
  else
    let phi := ops.acos (2 * (index : ℚ) / (total : ℚ) - 1)
    let theta := ops.pi * (1 + ops.sqrt 5) * (index : ℚ)
    let radius : ℚ := 8 + (ccOrZero p : ℚ) * (5/100)
    (radius * ops.sin phi * ops.cos theta,
     radius * ops.sin phi * ops.sin theta * (1/2),
     radius * ops.cos phi)

/-- The output record of the layout: the spread `{...paper, position}` keeps
every field of the paper and adds a position. -/
structure PositionedPaper where
  paper : Paper
  position : ℚ × ℚ × ℚ
deriving Repr, DecidableEq

/-- The indexed map underlying `papers.map((paper, index) => ...)`, with `k`
the index of the head of the remaining list. -/
def positionAll (ops : TrigOps) (total : Nat) : Nat → List Paper → List PositionedPaper
  | _, [] => []
  | k, p :: ps =>
      { paper := p, position := galaxyPosition ops total k p } :: positionAll ops total (k + 1) ps

/-- `Galaxy.positionedPapers`: position every paper by its list index. -/
def positionedPapers (ops : TrigOps) (papers : List Paper) : List PositionedPaper :=
  positionAll ops papers.length 0 papers

/-! ## Central/Selection Resolver: `Galaxy.centralPaperId` -/

/-- The reducer `(prev, current) => (prev.citation_count || 0) >
(current.citation_count || 0) ? prev : current`. -/
def centralStep (prev current : Paper) : Paper :=
  if ccOrZero prev > ccOrZero current then prev else current

/-- `papers.reduce(centralStep)`: fold the tail onto the head. -/
def reduceCentral (p : Paper) (ps : List Paper) : Paper :=
  ps.foldl centralStep p

/-- `Galaxy.centralPaperId`: `none` for the empty list, otherwise `some` of the
(possibly absent) `id` of the reduction result. -/
def centralPaperId (papers : List Paper) : Option (Option String) :=
  match papers with
  | [] => none
  | p :: ps => some (reduceCentral p ps).id

/-! ## Connection Curve Generator: `ConnectionLine` and the `Galaxy` map -/

/-- The strength actually handed to `ConnectionLine`:
`connection.strength || 1` maps an absent or zero strength to `1`. -/
def effStrength (s : Option ℚ) : ℚ :=
  match s with
  | none => 1
  | some v => if v = 0 then 1 else v

/-- Componentwise `THREE.Color.lerp`: `c1 + (c2 - c1) * a`. -/
def lerpColor (c1 c2 : ℚ × ℚ × ℚ) (a : ℚ) : ℚ × ℚ × ℚ :=
  (c1.1 + (c2.1 - c1.1) * a,
   c1.2.1 + (c2.2.1 - c1.2.1) * a,
   c1.2.2 + (c2.2.2 - c1.2.2) * a)

/-- First anchor color `0x60A5FA`, as rgb components in `[0,1]`. -/
def anchorBlue : ℚ × ℚ × ℚ := (96/255, 165/255, 250/255)

/-- Second anchor color `0x8B5CF6`, as rgb components in `[0,1]`. -/
def anchorPurple : ℚ × ℚ × ℚ := (139/255, 92/255, 246/255)

/-- `opacity={0.2 + strength * 0.3}`. -/
def connectionOpacity (strength : ℚ) : ℚ := 2/10 + strength * (3/10)

/-- `lineWidth={Math.max(0.3, strength * 2)}`. -/
def connectionWidth (strength : ℚ) : ℚ := max (3/10) (strength * 2)

/-- The render model of one connection curve. -/
structure RenderedLine where
  startPos : ℚ × ℚ × ℚ
  endPos : ℚ × ℚ × ℚ
  color : ℚ × ℚ × ℚ
  width : ℚ
  opacity : ℚ
deriving Repr, DecidableEq

/-- `ConnectionLine`: blend the anchors by `strength` and apply the floored
width and opacity. -/
def connectionLine (s e : ℚ × ℚ × ℚ) (strength : ℚ) : RenderedLine :=
  { startPos := s, endPos := e,
    color := lerpColor anchorBlue anchorPurple strength,
    width := connectionWidth strength,
    opacity := connectionOpacity strength }

/-- The `Galaxy` connections map for a single connection: look both endpoint
ids up in the positioned set; render only when both are found. -/
def renderConnection (positioned : List PositionedPaper) (c : Connection) :
    Option RenderedLine :=
  match positioned.find? (fun q => q.paper.id == some c.source),
        positioned.find? (fun q => q.paper.id == some c.target) with
  | some s, some t => some (connectionLine s.position t.position (effStrength c.strength))
  | _, _ => none

/-! ## Year Histogram & Range Filter -/

/-- The JS truthiness test `if (paper.year)`: present and nonzero. -/
def jsTruthyYear (p : Paper) : Bool :=
  match p.year with
  | none => false
  | some y => y != 0

/-- `TimelineSlider.yearStats`: `(minYear, maxYear)` over years `> 1900`,
defaulting to `(1900, currentYear)` for an empty list or no such year. -/
def yearStats (currentYear : Int) (papers : List Paper) : Int × Int :=
  if papers.isEmpty then (1900, currentYear)
  else
    match (papers.map (fun p => p.year.getD 0)).filter (fun y => decide (1900 < y)) with
    | [] => (1900, currentYear)
    | y :: ys => (ys.foldl min y, ys.foldl max y)

/-- `min(range, 20)` buckets over the `yearStats` span. -/
def bucketCount (currentYear : Int) (papers : List Paper) : Int :=
  min ((yearStats currentYear papers).2 - (yearStats currentYear papers).1 + 1) 20

/-- `Math.floor(((year - minYear) / range) * buckets)`, read over exact
rationals: the floor of `(y - minY) * buckets / range`. -/
def rawBucket (minY range buckets y : Int) : Int :=
  Int.fdiv ((y - minY) * buckets) range

/-- `Math.max(0, Math.min(buckets - 1, bucket))`. -/
def safeBucket (minY range buckets y : Int) : Int :=
  max 0 (min (buckets - 1) (rawBucket minY range buckets y))

/-- One step of `papers.forEach` in `getYearDistribution`: a paper with a
truthy year increments its clamped bucket. -/
def bumpBucket (minY range buckets : Int) (dist : List Nat) (p : Paper) : List Nat :=
  if jsTruthyYear p then
    let k := (safeBucket minY range buckets (p.year.getD 0)).toNat
    dist.set k (dist.getD k 0 + 1)
  else dist

/-- `TimelineSlider.getYearDistribution`: the ordered per-bucket counts. -/
def getYearDistribution (currentYear : Int) (papers : List Paper) : List Nat :=
  let s := yearStats currentYear papers
  let range := s.2 - s.1 + 1
  let buckets := min range 20
  papers.foldl (bumpBucket s.1 range buckets) (List.replicate buckets.toNat 0)

/-- `App.filteredPapers` predicate: `paper.year >= lo && paper.year <= hi`;
an absent year compares as `false` on both sides. -/
def yearInRange (lo hi : Int) (p : Paper) : Bool :=
  match p.year with
  | none => false
  | some y => decide (lo ≤ y) && decide (y ≤ hi)

/-- `App.filteredPapers`. -/
def filteredPapers (lo hi : Int) (papers : List Paper) : List Paper :=
  papers.filter (yearInRange lo hi)

/-! ## App state and the successful-fetch transition -/

/-- The `App` component state relevant to the core. -/
structure AppState where
  papers : List Paper
  connections : List Connection
  selectedPaper : Option Paper
  yearRange : Int × Int
  loading : Bool
  showExamples : Bool
deriving Repr, DecidableEq

/-- The `useState` initial values: empty graph, no selection,
`yearRange = [1990, currentYear]`. -/
def initialAppState (currentYear : Int) : AppState :=
  { papers := [], connections := [], selectedPaper := none,
    yearRange := (1990, currentYear), loading := false, showExamples := true }

/-- The normalized fetch result consumed by `App.handleSearch`. -/
structure FetchResult where
  papers : List Paper
  edges : List Connection
  central_paper : Option String
deriving Repr, DecidableEq

/-- The state update performed by the success path of `App.handleSearch`:
replace papers and connections, select the paper whose id equals the fetched
`central_paper` (`===`, so two absent values also match), falling back to the
first paper; `yearRange` is not touched. -/
def handleSearchSuccess (st : AppState) (result : FetchResult) : AppState :=
  { st with
    papers := result.papers,
    connections := result.edges,
    selectedPaper :=
      match result.papers.find? (fun p => p.id == result.central_paper) with
      | some c => some c
      | none => result.papers.head?,
    loading := false,
    showExamples := false }

/-! ## Auxiliary definitions used by statements and concrete instances -/

/-- Whether `Star.getColor` finds a recognized entry in `paper.fields`. -/
def hasRecognizedField (p : Paper) : Bool :=
  match p.fields with
  | none => false
  | some fs => (fs.findSome? fieldColor).isSome

/-- Reference definition, written from the specification text of the layout:
`phi = acos(2*i/N - 1)`, `theta = π*(1+√5)*i`, `r = 8 + citationCount*0.05`,
`x = r*sin(phi)*cos(theta)`, `y = r*sin(phi)*sin(theta)*0.5`,
`z = r*cos(phi)`. -/
def layoutSpecPosition (ops : TrigOps) (bigN i : Nat) (cc : Int) : ℚ × ℚ × ℚ :=
  let phi := ops.acos (2 * (i : ℚ) / (bigN : ℚ) - 1)
  let theta := ops.pi * (1 + ops.sqrt 5) * (i : ℚ)
  let r : ℚ := 8 + (cc : ℚ) * (5/100)
  (r * ops.sin phi * ops.cos theta,
   r * ops.sin phi * ops.sin theta * (1/2),
   r * ops.cos phi)

/-- A paper with only an id. -/
def bareIdPaper (i : String) : Paper :=
  ⟨some i, none, none, none, none, none, none⟩

/-- A paper with only an id and a citation count. -/
def citedPaper (i : String) (cc : Int) : Paper :=
  ⟨some i, none, none, none, some cc, none, none⟩

/-- A paper with only a year. -/
def yearPaper (y : Int) : Paper :=
  ⟨none, none, none, some y, none, none, none⟩

/-- A paper with every metadata field absent. -/
def emptyPaper : Paper :=
  ⟨none, none, none, none, none, none, none⟩

/-- A computable interpretation of the transcendental operations, used to
instantiate layout statements at concrete inputs. -/
def dummyOps : TrigOps :=
  { sin := id, cos := id, acos := id, sqrt := id, pi := 3 }

/-- Two papers tied at the maximal citation count, first-listed `"a"`. -/
def tiePapers : List Paper := [citedPaper "a" 5, citedPaper "b" 5]

/-- A connection of strength `0` between papers `"a"` and `"b"`. -/
def zeroStrengthConn : Connection := { source := "a", target := "b", strength := some 0 }

/-- A pre-fetch app state whose year range has been narrowed by the user. -/
def narrowedState : AppState :=
  { papers := [], connections := [], selectedPaper := none,
    yearRange := (2000, 2010), loading := true, showExamples := false }

/-- A fetch result whose `central_paper` hint names the low-cited paper. -/
def lowCentralResult : FetchResult :=
  { papers := [citedPaper "low" 1, citedPaper "high" 100],
    edges := [], central_paper := some "low" }

/-- An empty fetch result. -/
def emptyFetchResult : FetchResult :=
  { papers := [], edges := [], central_paper := none }

/-- A concrete positioned-publication set with papers `"a"` and `"b"`. -/
def abPositioned : List PositionedPaper :=
  [{ paper := citedPaper "a" 5, position := (0, 0, 0) },
   { paper := citedPaper "b" 5, position := (1, 1, 1) }]

/-! ## C6 — filter inclusivity -/

/-- C6: the year-range filter predicate passes a publication iff
`lo ≤ year ≤ hi`, both ends inclusive; a publication with no year never
passes any range filter (in particular none narrower than the default). -/
theorem yearInRange_inclusive (lo hi : Int) (p : Paper) :
    (∀ y : Int, p.year = some y → (yearInRange lo hi p = true ↔ lo ≤ y ∧ y ≤ hi))
    ∧ (p.year = none → yearInRange lo hi p = false) := by
  constructor
  · intro y hy
    simp [yearInRange, hy]
  · intro hy
    simp [yearInRange, hy]

/-- C6 witness: with range `[2000, 2010]`, a year-2000 paper and a year-2010
paper pass, a year-1999 paper and a year-2011 paper do not, and a paper with
no year does not. -/
theorem yearInRange_inclusive_witness :
    yearInRange 2000 2010 (yearPaper 2000) = true
    ∧ yearInRange 2000 2010 (yearPaper 2010) = true
    ∧ yearInRange 2000 2010 (yearPaper 1999) = false
    ∧ yearInRange 2000 2010 (yearPaper 2011) = false
    ∧ yearInRange 2000 2010 emptyPaper = false := by
  refine ⟨((yearInRange_inclusive 2000 2010 (yearPaper 2000)).1 2000 rfl).mpr (by decide),
          ((yearInRange_inclusive 2000 2010 (yearPaper 2010)).1 2010 rfl).mpr (by decide),
          ?_, ?_, (yearInRange_inclusive 2000 2010 emptyPaper).2 rfl⟩
  · cases hb : yearInRange 2000 2010 (yearPaper 1999) with
    | false => rfl
    | true =>
      have := ((yearInRange_inclusive 2000 2010 (yearPaper 1999)).1 1999 rfl).mp hb
      omega
  · cases hb : yearInRange 2000 2010 (yearPaper 2011) with
    | false => rfl
    | true =>
      have := ((yearInRange_inclusive 2000 2010 (yearPaper 2011)).1 2011 rfl).mp hb
      omega

/-! ## C8 — connection dropping -/

/-- C8: a connection whose source or target id is absent from the current
positioned-publication set produces no renderable line (and, the embedding
being total, raises no error). -/
theorem renderConnection_drop (positioned : List PositionedPaper) (c : Connection)
    (h : (∀ q ∈ positioned, q.paper.id ≠ some c.source)
       ∨ (∀ q ∈ positioned, q.paper.id ≠ some c.target)) :
    renderConnection positioned c = none := by
  cases hs : positioned.find? (fun q => q.paper.id == some c.source) with
  | none =>
    unfold renderConnection
    rw [hs]
  | some sp =>
    cases ht : positioned.find? (fun q => q.paper.id == some c.target) with
    | none =>
      unfold renderConnection
      rw [hs, ht]
    | some tp =>
      exfalso
      rcases h with h | h
      · exact h sp (List.mem_of_find?_eq_some hs) (by simpa using List.find?_some hs)
      · exact h tp (List.mem_of_find?_eq_some ht) (by simpa using List.find?_some ht)

/-- C8 witness: a connection whose source id `"zz"` matches no positioned
paper is dropped. -/
theorem renderConnection_drop_witness :
    renderConnection (positionedPapers dummyOps tiePapers)
      { source := "zz", target := "a", strength := none } = none :=
  renderConnection_drop _ _ (Or.inl (by decide))

/-! ## C9 — color fallback stability -/

/-- Helper: without a recognized entry in `fields`, `getColor` returns the
cluster-indexed fallback color. -/
theorem getColor_fallback (p : Paper) (hp : hasRecognizedField p = false) :
    getColor p = clusterFallbackColor p := by
  unfold getColor
  unfold hasRecognizedField at hp
  cases hf : p.fields with
  | none => rfl
  | some fs =>
    rw [hf] at hp
    have hp' : (fs.findSome? fieldColor).isSome = false := hp
    have hnone : fs.findSome? fieldColor = none := by
      cases hx : fs.findSome? fieldColor with
      | none => rfl
      | some c => rw [hx] at hp'; simp at hp'
    cases fs with
    | nil => simp
    | cons a l => simp [hnone]

/-- C9: two publications with the same `cluster` and no recognized `fields`
entry get the same fallback color, namely the palette entry at index
`|cluster| mod 8`; and when `fields` holds a recognized label, the color of
the first recognized label wins over any fallback. -/
theorem getColor_deterministic (p q : Paper)
    (hp : hasRecognizedField p = false) (hq : hasRecognizedField q = false)
    (hc : p.cluster = q.cluster) :
    getColor p = getColor q
    ∧ getColor p = clusterColors.getD ((clusterOrZero p).natAbs % 8) ""
    ∧ ∀ (r : Paper) (fs : List String) (c : String),
        r.fields = some fs → fs.findSome? fieldColor = some c → getColor r = c := by
  have hfallback : getColor p = clusterColors.getD ((clusterOrZero p).natAbs % 8) "" := by
    rw [getColor_fallback p hp]
    unfold clusterFallbackColor
    rfl
  refine ⟨?_, hfallback, ?_⟩
  · rw [getColor_fallback p hp, getColor_fallback q hq]
    unfold clusterFallbackColor clusterOrZero
    rw [hc]
  · intro r fs c hrf hfind
    unfold getColor
    rw [hrf]
    cases fs with
    | nil => simp at hfind
    | cons a l => simp [hfind]

/-- C9 witness: two papers with cluster `-3` and unrecognized / absent
`fields` both get palette color 3, while a paper tagged `Physics` gets the
Physics color regardless of its cluster. -/
theorem getColor_deterministic_witness :
    getColor { emptyPaper with cluster := some (-3), fields := some ["Alchemy"] }
      = getColor { emptyPaper with cluster := some (-3) }
    ∧ getColor { emptyPaper with cluster := some (-3), fields := some ["Alchemy"] }
      = clusterColors.getD 3 ""
    ∧ getColor { emptyPaper with cluster := some 7, fields := some ["Astrology", "Physics"] }
      = "#8B5CF6" := by
  have h := getColor_deterministic
    { emptyPaper with cluster := some (-3), fields := some ["Alchemy"] }
    { emptyPaper with cluster := some (-3) }
    (by decide) (by decide) (by decide)
  exact ⟨h.1, h.2.1, h.2.2 _ ["Astrology", "Physics"] "#8B5CF6" rfl (by decide)⟩

/-! ## C1 — central resolver -/

/-- Helper: one fold step never decreases the running citation count. -/
theorem ccOrZero_centralStep_left (a b : Paper) :
    ccOrZero a ≤ ccOrZero (centralStep a b) := by
  unfold centralStep
  split <;> omega

/-- Helper: the fold step dominates its right argument as well. -/
theorem ccOrZero_centralStep_right (a b : Paper) :
    ccOrZero b ≤ ccOrZero (centralStep a b) := by
  unfold centralStep
  split <;> omega

/-- Helper: folding `centralStep` over a list either keeps the seed (every
list element being strictly smaller) or lands on a list element that is
maximal, with every later element strictly smaller. -/
theorem foldl_centralStep_spec (l : List Paper) (a : Paper) :
    (l.foldl centralStep a = a ∧ ∀ q ∈ l, ccOrZero q < ccOrZero a)
    ∨ (∃ i : Fin l.length,
        l.foldl centralStep a = l.get i
        ∧ ccOrZero a ≤ ccOrZero (l.get i)
        ∧ (∀ j : Fin l.length, ccOrZero (l.get j) ≤ ccOrZero (l.get i))
        ∧ (∀ j : Fin l.length, i.val < j.val → ccOrZero (l.get j) < ccOrZero (l.get i))) := by
  induction l generalizing a with
  | nil => exact Or.inl ⟨rfl, by simp⟩
  | cons b l ih =>
    have hfold : (b :: l).foldl centralStep a = l.foldl centralStep (centralStep a b) := rfl
    rcases ih (centralStep a b) with ⟨heq, hlt⟩ | ⟨i, heq, ha, hall, hafter⟩
    · by_cases hab : ccOrZero a > ccOrZero b
      · have hcs : centralStep a b = a := by unfold centralStep; rw [if_pos hab]
        left
        refine ⟨by rw [hfold, heq, hcs], ?_⟩
        intro q hq
        rcases List.mem_cons.mp hq with rfl | hq
        · exact hab
        · have := hlt q hq
          rwa [hcs] at this
      · have hcs : centralStep a b = b := by unfold centralStep; rw [if_neg hab]
        right
        refine ⟨⟨0, Nat.succ_pos _⟩, by rw [hfold, heq, hcs]; rfl,
          (show ccOrZero a ≤ ccOrZero b by omega), ?_, ?_⟩
        · rintro ⟨jv, hj⟩
          cases jv with
          | zero => exact le_refl _
          | succ k =>
            have hk : k < l.length := Nat.lt_of_succ_lt_succ hj
            have hmem : l.get ⟨k, hk⟩ ∈ l := List.get_mem l k hk
            have := hlt _ hmem
            rw [hcs] at this
            exact le_of_lt this
        · rintro ⟨jv, hj⟩ hj0
          cases jv with
          | zero => exact absurd hj0 (Nat.not_lt_zero _)
          | succ k =>
            have hk : k < l.length := Nat.lt_of_succ_lt_succ hj
            have hmem : l.get ⟨k, hk⟩ ∈ l := List.get_mem l k hk
            have := hlt _ hmem
            rwa [hcs] at this
    · right
      have has : ccOrZero a ≤ ccOrZero (l.get i) :=
        le_trans (ccOrZero_centralStep_left a b) ha
      have hbs : ccOrZero b ≤ ccOrZero (l.get i) :=
        le_trans (ccOrZero_centralStep_right a b) ha
      refine ⟨i.succ, ?_, has, ?_, ?_⟩
      · rw [hfold, heq]
        rfl
      · rintro ⟨jv, hj⟩
        cases jv with
        | zero => exact hbs
        | succ k =>
          have hk : k < l.length := Nat.lt_of_succ_lt_succ hj
          exact hall ⟨k, hk⟩
      · rintro ⟨jv, hj⟩ hj0
        cases jv with
        | zero => exact absurd hj0 (Nat.not_lt_zero _)
        | succ k =>
          have hk : k < l.length := Nat.lt_of_succ_lt_succ hj
          have hik : i.val < k := by
            have h1 : i.val + 1 < k + 1 := hj0
            omega
          exact hafter ⟨k, hk⟩ hik

/-- C1 counterexample: with two papers tied at the maximal citation count,
the resolver returns the id of the LAST maximal paper (`"b"`), not the
first-listed one (`"a"`). -/
theorem centralPaperId_tie_counterexample :
    centralPaperId tiePapers = some (some "b")
    ∧ ccOrZero (citedPaper "a" 5) = ccOrZero (citedPaper "b" 5)
    ∧ tiePapers.head? = some (citedPaper "a" 5)
    ∧ (citedPaper "a" 5).id = some "a" := by
  decide

/-- C1 amended: for every non-empty publication list the resolver returns
the id of a publication whose (defaulted) citation count is maximal; when
several publications tie at the maximum, the returned id is that of the
LAST such publication in list order (every later publication is strictly
smaller). -/
theorem centralPaperId_lastMax (l : List Paper) (h : l ≠ []) :
    ∃ i : Fin l.length, centralPaperId l = some ((l.get i).id)
      ∧ (∀ j : Fin l.length, ccOrZero (l.get j) ≤ ccOrZero (l.get i))
      ∧ (∀ j : Fin l.length, i.val < j.val → ccOrZero (l.get j) < ccOrZero (l.get i)) := by
  match l with
  | [] => exact absurd rfl h
  | p :: ps =>
    have hc : centralPaperId (p :: ps) = some (ps.foldl centralStep p).id := rfl
    rcases foldl_centralStep_spec ps p with ⟨heq, hlt⟩ | ⟨i, heq, ha, hall, hafter⟩
    · refine ⟨⟨0, Nat.succ_pos _⟩, by rw [hc, heq]; rfl, ?_, ?_⟩
      · rintro ⟨jv, hj⟩
        cases jv with
        | zero => exact le_refl _
        | succ k =>
          have hk : k < ps.length := Nat.lt_of_succ_lt_succ hj
          exact le_of_lt (hlt _ (List.get_mem ps k hk))
      · rintro ⟨jv, hj⟩ hj0
        cases jv with
        | zero => exact absurd hj0 (Nat.not_lt_zero _)
        | succ k =>
          have hk : k < ps.length := Nat.lt_of_succ_lt_succ hj
          exact hlt _ (List.get_mem ps k hk)
    · refine ⟨i.succ, by rw [hc, heq]; rfl, ?_, ?_⟩
      · rintro ⟨jv, hj⟩
        cases jv with
        | zero => exact ha
        | succ k =>
          have hk : k < ps.length := Nat.lt_of_succ_lt_succ hj
          exact hall ⟨k, hk⟩
      · rintro ⟨jv, hj⟩ hj0
        cases jv with
        | zero => exact absurd hj0 (Nat.not_lt_zero _)
        | succ k =>
          have hk : k < ps.length := Nat.lt_of_succ_lt_succ hj
          have hik : i.val < k := by
            have h1 : i.val + 1 < k + 1 := hj0
            omega
          exact hafter ⟨k, hk⟩ hik

/-- C1 witness: the amended theorem applied to the concrete tied list. -/
theorem centralPaperId_lastMax_witness :
    tiePapers ≠ []
    ∧ ∃ i : Fin tiePapers.length,
        centralPaperId tiePapers = some ((tiePapers.get i).id)
        ∧ (∀ j : Fin tiePapers.length,
            ccOrZero (tiePapers.get j) ≤ ccOrZero (tiePapers.get i))
        ∧ (∀ j : Fin tiePapers.length, i.val < j.val →
            ccOrZero (tiePapers.get j) < ccOrZero (tiePapers.get i)) :=
  ⟨by decide, centralPaperId_lastMax tiePapers (by decide)⟩

/-! ## C2 — year histogram -/

/-- Helper: a left fold of `min` never exceeds its seed. -/
theorem foldl_min_le_seed (l : List Int) (a : Int) : l.foldl min a ≤ a := by
  induction l generalizing a with
  | nil => exact le_refl a
  | cons b l ih => exact le_trans (ih (min a b)) (min_le_left a b)

/-- Helper: a left fold of `max` is at least its seed. -/
theorem seed_le_foldl_max (l : List Int) (a : Int) : a ≤ l.foldl max a := by
  induction l generalizing a with
  | nil => exact le_refl a
  | cons b l ih => exact le_trans (le_max_left a b) (ih (max a b))

/-- Helper: the `yearStats` range is well ordered once the calendar year is
at least 1900. -/
theorem yearStats_fst_le_snd (cy : Int) (papers : List Paper) (hcy : 1900 ≤ cy) :
    (yearStats cy papers).1 ≤ (yearStats cy papers).2 := by
  unfold yearStats
  split
  · simpa using hcy
  · split
    · simpa using hcy
    · exact le_trans (foldl_min_le_seed _ _) (seed_le_foldl_max _ _)

/-- Helper: there is at least one bucket once the calendar year is at least
1900. -/
theorem bucketCount_pos (cy : Int) (papers : List Paper) (hcy : 1900 ≤ cy) :
    1 ≤ bucketCount cy papers := by
  have h := yearStats_fst_le_snd cy papers hcy
  unfold bucketCount
  omega

/-- Helper: the clamped bucket index always lands in `[0, buckets - 1]`. -/
theorem safeBucket_mem (minY range buckets y : Int) (hb : 1 ≤ buckets) :
    0 ≤ safeBucket minY range buckets y ∧ safeBucket minY range buckets y ≤ buckets - 1 := by
  unfold safeBucket
  constructor
  · exact le_max_left 0 _
  · exact max_le (by omega) (min_le_left _ _)

/-- Helper: one `forEach` step preserves the number of buckets. -/
theorem bumpBucket_length (minY range buckets : Int) (dist : List Nat) (p : Paper) :
    (bumpBucket minY range buckets dist p).length = dist.length := by
  unfold bumpBucket
  split
  · exact List.length_set dist _ _
  · rfl

/-- Helper: the whole `forEach` preserves the number of buckets. -/
theorem foldl_bumpBucket_length (minY range buckets : Int) (papers : List Paper)
    (dist : List Nat) :
    (papers.foldl (bumpBucket minY range buckets) dist).length = dist.length := by
  induction papers generalizing dist with
  | nil => rfl
  | cons p ps ih => rw [List.foldl_cons, ih, bumpBucket_length]

/-- Helper: incrementing an in-range slot raises the total count by one. -/
theorem sum_set_getD_succ (l : List Nat) (k : Nat) (hk : k < l.length) :
    (l.set k (l.getD k 0 + 1)).sum = l.sum + 1 := by
  induction l generalizing k with
  | nil => simp at hk
  | cons a l ih =>
    cases k with
    | zero =>
      simp [List.getD_cons_zero, List.sum_cons]
      omega
    | succ k =>
      have hk' : k < l.length := Nat.lt_of_succ_lt_succ hk
      simp only [List.getD_cons_succ, List.set_cons_succ, List.sum_cons, ih k hk']
      omega

/-- Helper: the `forEach` adds exactly one count per paper with a truthy
year, provided the bucket list covers all `buckets` slots. -/
theorem foldl_bumpBucket_sum (minY range buckets : Int) (hb : 1 ≤ buckets)
    (papers : List Paper) (dist : List Nat) (hlen : dist.length = buckets.toNat) :
    (papers.foldl (bumpBucket minY range buckets) dist).sum
      = dist.sum + papers.countP jsTruthyYear := by
  induction papers generalizing dist with
  | nil => simp
  | cons p ps ih =>
    rw [List.foldl_cons,
        ih (bumpBucket minY range buckets dist p) (by rw [bumpBucket_length]; exact hlen)]
    have hstep : (bumpBucket minY range buckets dist p).sum
        = dist.sum + (if jsTruthyYear p then 1 else 0) := by
      unfold bumpBucket
      cases htr : jsTruthyYear p with
      | false => simp
      | true =>
        simp only [if_pos rfl, if_true]
        have hmem := safeBucket_mem minY range buckets (p.year.getD 0) hb
        have hk : (safeBucket minY range buckets (p.year.getD 0)).toNat < dist.length := by
          rw [hlen]
          omega
        rw [sum_set_getD_succ dist _ hk]
    rw [hstep, List.countP_cons]
    cases htr : jsTruthyYear p with
    | false => simp [htr]
    | true =>
      simp only [htr, if_true]
      omega

/-- C2 counterexample: a single publication with year `1850` (not `> 1900`)
is counted — clamped into bucket 0 — so the histogram total is `1` while the
number of publications with year `> 1900` is `0`. -/
theorem getYearDistribution_counterexample :
    (getYearDistribution 2026 [yearPaper 1850]).sum = 1
    ∧ ([yearPaper 1850] : List Paper).countP
        (fun p => decide (1900 < p.year.getD 0)) = 0
    ∧ (getYearDistribution 2026 [yearPaper 1850]).getD 0 0 = 1 := by
  decide

/-- C2 amended: the histogram is an ordered bucket-count list whose length
is the bucket count, whose total equals the number of publications with a
PRESENT, NONZERO year (publications with year `≤ 1900` are clamped into
bucket 0 rather than excluded; only an absent or zero year contributes to no
bucket), and every clamped bucket index lies in `[0, bucketCount-1]`. -/
theorem getYearDistribution_conservation (cy : Int) (papers : List Paper) (y : Int)
    (hcy : 1900 ≤ cy) :
    (getYearDistribution cy papers).length = (bucketCount cy papers).toNat
    ∧ (getYearDistribution cy papers).sum = papers.countP jsTruthyYear
    ∧ 0 ≤ safeBucket (yearStats cy papers).1
          ((yearStats cy papers).2 - (yearStats cy papers).1 + 1) (bucketCount cy papers) y
    ∧ safeBucket (yearStats cy papers).1
          ((yearStats cy papers).2 - (yearStats cy papers).1 + 1) (bucketCount cy papers) y
        ≤ bucketCount cy papers - 1 := by
  have hb : 1 ≤ bucketCount cy papers := bucketCount_pos cy papers hcy
  have hgdef : getYearDistribution cy papers
      = papers.foldl
          (bumpBucket (yearStats cy papers).1
            ((yearStats cy papers).2 - (yearStats cy papers).1 + 1) (bucketCount cy papers))
          (List.replicate (bucketCount cy papers).toNat 0) := rfl
  have hmem := safeBucket_mem (yearStats cy papers).1
    ((yearStats cy papers).2 - (yearStats cy papers).1 + 1) (bucketCount cy papers) y hb
  refine ⟨?_, ?_, hmem.1, hmem.2⟩
  · rw [hgdef, foldl_bumpBucket_length, List.length_replicate]
  · rw [hgdef, foldl_bumpBucket_sum _ _ _ hb papers _ (List.length_replicate _ _)]
    simp

/-- C2 witness: the amended theorem applied to a concrete mixed list — one
paper each with years 1850, 1995, 2020, one with year 0 and one with no
year; total `3`, length `min(2020-1995+1, 20) = 20`... the concrete bucket
count is `20` and bucket index `-3` is clamped. -/
theorem getYearDistribution_conservation_witness :
    (1900 : Int) ≤ 2026
    ∧ ((getYearDistribution 2026 [yearPaper 1850, yearPaper 1995, yearPaper 2020,
          yearPaper 0, emptyPaper]).length
        = (bucketCount 2026 [yearPaper 1850, yearPaper 1995, yearPaper 2020,
            yearPaper 0, emptyPaper]).toNat
      ∧ (getYearDistribution 2026 [yearPaper 1850, yearPaper 1995, yearPaper 2020,
          yearPaper 0, emptyPaper]).sum
        = ([yearPaper 1850, yearPaper 1995, yearPaper 2020,
            yearPaper 0, emptyPaper] : List Paper).countP jsTruthyYear
      ∧ 0 ≤ safeBucket (yearStats 2026 [yearPaper 1850, yearPaper 1995, yearPaper 2020,
            yearPaper 0, emptyPaper]).1
            ((yearStats 2026 [yearPaper 1850, yearPaper 1995, yearPaper 2020,
              yearPaper 0, emptyPaper]).2
              - (yearStats 2026 [yearPaper 1850, yearPaper 1995, yearPaper 2020,
                  yearPaper 0, emptyPaper]).1 + 1)
            (bucketCount 2026 [yearPaper 1850, yearPaper 1995, yearPaper 2020,
              yearPaper 0, emptyPaper]) 1850
      ∧ safeBucket (yearStats 2026 [yearPaper 1850, yearPaper 1995, yearPaper 2020,
            yearPaper 0, emptyPaper]).1
            ((yearStats 2026 [yearPaper 1850, yearPaper 1995, yearPaper 2020,
              yearPaper 0, emptyPaper]).2
              - (yearStats 2026 [yearPaper 1850, yearPaper 1995, yearPaper 2020,
                  yearPaper 0, emptyPaper]).1 + 1)
            (bucketCount 2026 [yearPaper 1850, yearPaper 1995, yearPaper 2020,
              yearPaper 0, emptyPaper]) 1850
          ≤ bucketCount 2026 [yearPaper 1850, yearPaper 1995, yearPaper 2020,
              yearPaper 0, emptyPaper] - 1) :=
  ⟨by decide,
   getYearDistribution_conservation 2026
     [yearPaper 1850, yearPaper 1995, yearPaper 2020, yearPaper 0, emptyPaper]
     1850 (by decide)⟩

/-! ## C3 — connection color blend and visual floors -/

/-- C3 counterexample: a renderable connection whose stored strength is `0`
is passed `strength || 1 = 1` and is therefore rendered with exactly the
SECOND anchor color, not the first. -/
theorem connection_zero_strength_counterexample :
    (renderConnection abPositioned zeroStrengthConn).map RenderedLine.color
      = some anchorPurple
    ∧ anchorPurple ≠ anchorBlue := by
  constructor
  · have hsome : renderConnection abPositioned zeroStrengthConn
        = some (connectionLine ((0:ℚ), (0:ℚ), (0:ℚ)) ((1:ℚ), (1:ℚ), (1:ℚ))
            (effStrength zeroStrengthConn.strength)) := rfl
    rw [hsome]
    show some (lerpColor anchorBlue anchorPurple (effStrength zeroStrengthConn.strength))
      = some anchorPurple
    have heff : effStrength zeroStrengthConn.strength = 1 := rfl
    rw [heff]
    unfold lerpColor anchorBlue anchorPurple
    norm_num
  · intro hcontra
    have h1 : anchorPurple.1 = anchorBlue.1 := by rw [hcontra]
    unfold anchorPurple anchorBlue at h1
    norm_num at h1

/-- C3 amended: every rendered connection's color is the linear blend of the
two anchors with the EFFECTIVE strength (`strength || 1`, so an absent or
zero strength blends at `1`, i.e. the second anchor) as blend factor, and the
width/opacity functions are floored: for every strength in `[0,1]`, opacity
is at least `0.2` and width at least `0.3`. -/
theorem connection_render_spec (positioned : List PositionedPaper) (c : Connection)
    (r : RenderedLine) (h : renderConnection positioned c = some r) (s : ℚ)
    (hs0 : 0 ≤ s) (hs1 : s ≤ 1) :
    r.color = lerpColor anchorBlue anchorPurple (effStrength c.strength)
    ∧ (c.strength = some 0 → r.color = anchorPurple)
    ∧ r.opacity = connectionOpacity (effStrength c.strength)
    ∧ r.width = connectionWidth (effStrength c.strength)
    ∧ 2/10 ≤ connectionOpacity s
    ∧ 3/10 ≤ connectionWidth s := by
  have hfloorO : 2/10 ≤ connectionOpacity s := by
    unfold connectionOpacity
    nlinarith
  have hfloorW : 3/10 ≤ connectionWidth s := le_max_left _ _
  cases hsrc : positioned.find? (fun q => q.paper.id == some c.source) with
  | none =>
    unfold renderConnection at h
    rw [hsrc] at h
    exact absurd h (by simp)
  | some sp =>
    cases htgt : positioned.find? (fun q => q.paper.id == some c.target) with
    | none =>
      unfold renderConnection at h
      rw [hsrc, htgt] at h
      exact absurd h (by simp)
    | some tp =>
      unfold renderConnection at h
      rw [hsrc, htgt] at h
      have hr : connectionLine sp.position tp.position (effStrength c.strength) = r :=
        Option.some_injective _ h
      subst hr
      refine ⟨rfl, ?_, rfl, rfl, hfloorO, hfloorW⟩
      intro h0
      rw [h0]
      show lerpColor anchorBlue anchorPurple (effStrength (some 0)) = anchorPurple
      have heff : effStrength (some 0) = (1:ℚ) := rfl
      rw [heff]
      unfold lerpColor anchorBlue anchorPurple
      norm_num

/-- C3 witness: the amended theorem applied at the concrete zero-strength
connection over `abPositioned`, with sample strength `1/2`. -/
theorem connection_render_spec_witness :
    (connectionLine ((0:ℚ), (0:ℚ), (0:ℚ)) ((1:ℚ), (1:ℚ), (1:ℚ))
        (effStrength zeroStrengthConn.strength)).color
      = lerpColor anchorBlue anchorPurple (effStrength zeroStrengthConn.strength)
    ∧ (0:ℚ) ≤ 1/2 ∧ (1:ℚ)/2 ≤ 1
    ∧ 2/10 ≤ connectionOpacity (1/2)
    ∧ 3/10 ≤ connectionWidth (1/2) := by
  have h := connection_render_spec abPositioned zeroStrengthConn
    (connectionLine ((0:ℚ), (0:ℚ), (0:ℚ)) ((1:ℚ), (1:ℚ), (1:ℚ))
      (effStrength zeroStrengthConn.strength))
    rfl (1/2) (by norm_num) (by norm_num)
  exact ⟨h.1, by norm_num, by norm_num, h.2.2.2.2.1, h.2.2.2.2.2⟩

/-! ## C4 — the successful-fetch transition -/

/-- C4 counterexample: a successful fetch over a state with a user-narrowed
year range leaves `yearRange = (2000, 2010)` (no reset to `[1990, current]`,
whose first component is 1990), and selects the publication named by the
fetched `central_paper` hint even though its citation count is NOT maximal. -/
theorem handleSearchSuccess_counterexample :
    (handleSearchSuccess narrowedState lowCentralResult).yearRange = (2000, 2010)
    ∧ (2000 : Int) ≠ 1990
    ∧ (handleSearchSuccess narrowedState lowCentralResult).selectedPaper
        = some (citedPaper "low" 1)
    ∧ ccOrZero (citedPaper "low" 1) < ccOrZero (citedPaper "high" 100) := by
  decide

/-- C4 amended: on each successful fetch the papers and connections are
replaced by the fetched ones, the selected paper becomes the publication
whose id equals the fetched `central_paper` hint (falling back to the first
publication, hence `none` for an empty list), and `yearRange` is left
UNCHANGED — it is `[1990, currentYear]` only at initialization. -/
theorem handleSearchSuccess_spec (st : AppState) (result : FetchResult) :
    (handleSearchSuccess st result).papers = result.papers
    ∧ (handleSearchSuccess st result).connections = result.edges
    ∧ (handleSearchSuccess st result).yearRange = st.yearRange
    ∧ (handleSearchSuccess st result).selectedPaper
        = (match result.papers.find? (fun p => p.id == result.central_paper) with
           | some c => some c
           | none => result.papers.head?)
    ∧ (handleSearchSuccess (initialAppState 2026) result).yearRange = (1990, 2026)
    ∧ (handleSearchSuccess st emptyFetchResult).selectedPaper = none :=
  ⟨rfl, rfl, rfl, rfl, rfl, rfl⟩

/-! ## C5 and C10 — the layout -/

/-- Helper: the indexed map preserves length. -/
theorem positionAll_length (ops : TrigOps) (total : Nat) (l : List Paper) :
    ∀ k, (positionAll ops total k l).length = l.length := by
  induction l with
  | nil => intro k; rfl
  | cons p ps ih =>
    intro k
    simp [positionAll, ih]

/-- Helper: the element at index `i` of the indexed map (started at offset
`k`) is the input paper paired with its `galaxyPosition` at `k + i`. -/
theorem positionAll_getElem? (ops : TrigOps) (total : Nat) (l : List Paper) :
    ∀ (k i : Nat) (p : Paper), l[i]? = some p →
      (positionAll ops total k l)[i]?
        = some { paper := p, position := galaxyPosition ops total (k + i) p } := by
  induction l with
  | nil =>
    intro k i p hp
    simp at hp
  | cons a l ih =>
    intro k i p hp
    cases i with
    | zero =>
      have hap : a = p := by simpa using hp
      subst hap
      simp [positionAll]
    | succ i =>
      have hp' : l[i]? = some p := by simpa using hp
      have harith : k + (i + 1) = (k + 1) + i := by omega
      rw [harith]
      simpa [positionAll] using ih (k + 1) i p hp'

/-- C5: the layout output has one entry per paper; with exactly one paper its
position is `(0,0,0)`, and with more than one paper the `i`-th position is
exactly the reference golden-angle formula of the specification, with the
citation count defaulted to `0` when absent. -/
theorem positionedPapers_positions (ops : TrigOps) (l : List Paper) (i : Nat) (p : Paper)
    (hp : l[i]? = some p) :
    (positionedPapers ops l).length = l.length
    ∧ (l.length = 1 →
        (positionedPapers ops l)[i]?
          = some { paper := p, position := ((0 : ℚ), (0 : ℚ), (0 : ℚ)) })
    ∧ (1 < l.length →
        (positionedPapers ops l)[i]?
          = some { paper := p,
                   position := layoutSpecPosition ops l.length i (ccOrZero p) }) := by
  have hget := positionAll_getElem? ops l.length l 0 i p hp
  rw [Nat.zero_add] at hget
  refine ⟨positionAll_length ops l.length l 0, ?_, ?_⟩
  · intro h1
    unfold positionedPapers
    rw [hget]
    unfold galaxyPosition
    rw [if_pos h1]
  · intro h1
    unfold positionedPapers
    rw [hget]
    unfold galaxyPosition layoutSpecPosition
    rw [if_neg (by omega)]

/-- C5 witness: the theorem applied at index 1 of the two-paper list. -/
theorem positionedPapers_positions_witness :
    (tiePapers[1]? = some (citedPaper "b" 5))
    ∧ (positionedPapers dummyOps tiePapers).length = tiePapers.length
    ∧ (1 < tiePapers.length →
        (positionedPapers dummyOps tiePapers)[1]?
          = some { paper := citedPaper "b" 5,
                   position := layoutSpecPosition dummyOps tiePapers.length 1
                     (ccOrZero (citedPaper "b" 5)) }) :=
  ⟨by decide,
   (positionedPapers_positions dummyOps tiePapers 1 (citedPaper "b" 5) (by decide)).1,
   (positionedPapers_positions dummyOps tiePapers 1 (citedPaper "b" 5) (by decide)).2.2⟩

/-- C10: the layout is index-aligned with its input — same length, and the
`i`-th output record carries the `i`-th input publication with every field
(id, title, authors, year, citation_count, fields, cluster) unchanged,
adding only the position. -/
theorem positionedPapers_frame (ops : TrigOps) (l : List Paper) (i : Nat) (p : Paper)
    (hp : l[i]? = some p) :
    (positionedPapers ops l).length = l.length
    ∧ ∃ q : PositionedPaper, (positionedPapers ops l)[i]? = some q
        ∧ q.paper = p
        ∧ q.paper.id = p.id ∧ q.paper.title = p.title ∧ q.paper.authors = p.authors
        ∧ q.paper.year = p.year ∧ q.paper.citation_count = p.citation_count
        ∧ q.paper.fields = p.fields ∧ q.paper.cluster = p.cluster := by
  have hget := positionAll_getElem? ops l.length l 0 i p hp
  exact ⟨positionAll_length ops l.length l 0,
    ⟨{ paper := p, position := galaxyPosition ops l.length (0 + i) p },
      hget, rfl, rfl, rfl, rfl, rfl, rfl, rfl, rfl⟩⟩

/-- C10 witness: the frame theorem applied at index 0 of the two-paper list. -/
theorem positionedPapers_frame_witness :
    (tiePapers[0]? = some (citedPaper "a" 5))
    ∧ (positionedPapers dummyOps tiePapers).length = tiePapers.length
    ∧ ∃ q : PositionedPaper, (positionedPapers dummyOps tiePapers)[0]? = some q
        ∧ q.paper = citedPaper "a" 5
        ∧ q.paper.id = (citedPaper "a" 5).id
        ∧ q.paper.title = (citedPaper "a" 5).title
        ∧ q.paper.authors = (citedPaper "a" 5).authors
        ∧ q.paper.year = (citedPaper "a" 5).year
        ∧ q.paper.citation_count = (citedPaper "a" 5).citation_count
        ∧ q.paper.fields = (citedPaper "a" 5).fields
        ∧ q.paper.cluster = (citedPaper "a" 5).cluster :=
  ⟨by decide,
   (positionedPapers_frame dummyOps tiePapers 0 (citedPaper "a" 5) (by decide)).1,
   (positionedPapers_frame dummyOps tiePapers 0 (citedPaper "a" 5) (by decide)).2⟩

/-! ## C7 — degradation on missing metadata -/

/-- C7 counterexample: a paper with EVERY metadata field absent — in
particular no title — throws a `TypeError` when rendered as the central
node, because the central label reads `title.substring`. -/
theorem renderStar_missing_title_counterexample :
    (renderStar (fun _ => 0) emptyPaper false true false).toOption = none
    ∧ emptyPaper.title = none := by
  constructor
  · rfl
  · rfl

/-- C7 amended: rendering a node never throws when its title is present, and
never throws for an ordinary node (not central, not hovered-while-unselected)
even with every metadata field absent; missing year, citationCount, fields,
authors and id are all absorbed by defaulting in the color and size
derivations. Only an absent title on a central or hovered node is fatal. -/
theorem renderStar_no_throw (log10 : ℚ → ℚ) (p : Paper) (sel cen hov : Bool)
    (h : p.title ≠ none ∨ (cen = false ∧ (hov = false ∨ sel = true))) :
    ∃ r : RenderedStar, renderStar log10 p sel cen hov = Except.ok r
      ∧ r.color = getColor p ∧ r.size = starSize log10 p := by
  cases htitle : p.title with
  | some t =>
    unfold renderStar starCentralLabel starHoverLabel
    rw [htitle]
    cases cen <;> cases hov <;> cases sel <;> exact ⟨_, rfl, rfl, rfl⟩
  | none =>
    rcases h with h | ⟨hcen, hrest⟩
    · exact absurd htitle h
    · subst hcen
      unfold renderStar starCentralLabel starHoverLabel
      rw [htitle]
      rcases hrest with hhov | hsel
      · subst hhov
        cases sel <;> exact ⟨_, rfl, rfl, rfl⟩
      · subst hsel
        cases hov <;> exact ⟨_, rfl, rfl, rfl⟩

/-- C7 witness: the amended theorem applied to the all-absent paper rendered
as an ordinary node. -/
theorem renderStar_no_throw_witness :
    (emptyPaper.title ≠ none ∨ (false = false ∧ (false = false ∨ false = true)))
    ∧ ∃ r : RenderedStar, renderStar (fun _ => 0) emptyPaper false false false = Except.ok r
        ∧ r.color = getColor emptyPaper ∧ r.size = starSize (fun _ => 0) emptyPaper :=
  ⟨Or.inr ⟨rfl, Or.inl rfl⟩,
   renderStar_no_throw (fun _ => 0) emptyPaper false false false (Or.inr ⟨rfl, Or.inl rfl⟩)⟩

end GalaxyCite
